import Mathlib

/-!
Shallow embedding of the Arduino-Cyberthon RFID attendance firmware
(`src/sketch_mar4a.ino`, v1.1 sketch: the variant with `countdownStarted`,
`buttonWasPressed`, `insideSession` and the LOGIN/LOGOUT serial events).

The single-threaded `loop()` is modelled as a pure step function
`loopStep : LoopState → LoopInput → LoopState × List Event`, composed of one
sub-function per labelled section of the source, in the source's evaluation
order: Button Logic, Countdown, LED Off Timing, RFID Cooldown, RFID Reading,
7-Segment Refresh.  `millis()` is an input; all `unsigned long` subtractions
are reduced modulo 2^32 by `usub`.  Serial output lines are modelled by the
inductive `Event`.
-/

namespace Cyberthon

/-- One full cycle of the 32-bit `unsigned long` millisecond counter. -/
def U32 : Nat := 4294967296

/-- Unsigned 32-bit subtraction `a - b` as performed on `unsigned long`. -/
def usub (a b : Nat) : Nat := (a % U32 + (U32 - b % U32)) % U32

/-- The periodic task guard pattern `currentMillis - last >= period` used by
every timer in `loop()` (countdown, LED off, cooldown, RFID poll, refresh). -/
def timeElapsed (current last period : Nat) : Prop := period ≤ usub current last

instance (c l p : Nat) : Decidable (timeElapsed c l p) :=
  inferInstanceAs (Decidable (p ≤ usub c l))

-- Configuration constants, from the `Timing & State` section of the sketch.
def countdownInterval : Nat := 1000
def initialCountdownSeconds : Int := 5700
def ledBlinkDuration : Nat := 500
def rfidPauseDuration : Nat := 1000
def refreshInterval : Nat := 1
def rfidCheckInterval : Nat := 75

/-- `const int numCards = 4`. -/
def numCards : Nat := 4

/-- `String authorizedUIDs[numCards]` with only three initializers: aggregate
initialization default-constructs the fourth `String` to the empty string. -/
def authorizedUIDs : List String :=
  ["51 249 205 166", "12 34 56 78", "19 106 123 19", ""]

/-- `String names[numCards]` with only three initializers; the fourth entry is
likewise the empty string. -/
def names : List String := ["Alice", "Charlie", "TestchipJB", ""]

/-- Linear scan with running index, as in the `for` loop of the helpers. -/
def findUidIdx : Nat → List String → String → Int
  | _, [], _ => -1
  | i, u :: rest, uid => if uid = u then (i : Int) else findUidIdx (i + 1) rest uid

/-- `getIndexFromUID`: index of `uid` in the authorised list, or `-1`. -/
def getIndexFromUID (uid : String) : Int := findUidIdx 0 authorizedUIDs uid

/-- Linear scan pairing each authorised UID with its name. -/
def findUidName : List String → List String → String → String
  | u :: us, n :: ns, uid => if uid = u then n else findUidName us ns uid
  | _, _, _ => "Unbekannt"

/-- `getNameFromUID`: the matching name, or `"Unbekannt"`. -/
def getNameFromUID (uid : String) : String := findUidName authorizedUIDs names uid

/-- `resetInsideSession()`: sets every per-identity flag to `false`. -/
def resetInsideSession : List Bool := List.replicate numCards false

/-- Arduino `String::trim()`: drop leading and trailing whitespace. -/
def trimStr (s : String) : String :=
  String.mk (((s.data.dropWhile (fun c => c.isWhitespace)).reverse.dropWhile
    (fun c => c.isWhitespace)).reverse)

/-- The UID string built from the raw UID bytes: decimal byte values joined by
single spaces, then trimmed (matching the `uidString` construction loop). -/
def uidStringOf (bytes : List Nat) : String :=
  trimStr (String.intercalate " " (bytes.map (fun b => toString b)))

/-- A line emitted on the serial port (`Serial.println`) by the loop. -/
inductive Event
  | newSession
  | login (uid name : String)
  | logout (uid name : String)
  deriving DecidableEq

/-- The 4-digit 7-segment readout: either `setNumber(n, 2)` or the
`setChars("----")` idle placeholder. -/
inductive SevSegOut
  | number (n : Int)
  | dashes
  deriving DecidableEq

/-- `minutes * 100 + seconds` as computed from a remaining-seconds value with
C `int` truncating division. -/
def mmss (r : Int) : Int := Int.tdiv r 60 * 100 + Int.tmod r 60

/-- All mutable global state of the sketch touched by `loop()`. -/
structure LoopState where
  previousCountdownMillis : Nat
  remainingSeconds : Int
  ledOffMillis : Nat
  rfidCooldownMillis : Nat
  previousRefreshMillis : Nat
  previousRfidCheckMillis : Nat
  greenLedState : Bool
  redLedState : Bool
  rfidReady : Bool
  countdownStarted : Bool
  buttonWasPressed : Bool
  insideSession : List Bool
  sevseg : SevSegOut
  lcdRow0 : String
  lcdRow1 : String
  deriving DecidableEq

/-- Inputs sampled by one iteration of `loop()`: the `millis()` snapshot, the
button level, and the card read (`some bytes` exactly when
`PICC_IsNewCardPresent() && PICC_ReadCardSerial()` succeeds, carrying the UID
bytes; `none` when no card is present or the serial read fails). -/
structure LoopInput where
  currentMillis : Nat
  buttonIsPressed : Bool
  cardRead : Option (List Nat)
  deriving DecidableEq

/-- Button Logic section: rising edge while idle starts a session. -/
def buttonStep (inp : LoopInput) (s : LoopState) : LoopState × List Event :=
  if inp.buttonIsPressed = true ∧ s.buttonWasPressed = false ∧ s.countdownStarted = false then
    ({ s with countdownStarted := true
            , remainingSeconds := initialCountdownSeconds
            , previousCountdownMillis := inp.currentMillis
            , insideSession := resetInsideSession
            , lcdRow0 := "Countdown Laeuft"
            , lcdRow1 := "           "
            , sevseg := SevSegOut.number (mmss initialCountdownSeconds)
            , buttonWasPressed := inp.buttonIsPressed },
     [Event.newSession])
  else ({ s with buttonWasPressed := inp.buttonIsPressed }, [])

/-- Countdown section: decrement once per second while running, reset the
display and the `countdownStarted` flag once the time is up. -/
def countdownStep (t : Nat) (s : LoopState) : LoopState :=
  if s.countdownStarted = true ∧ timeElapsed t s.previousCountdownMillis countdownInterval
      ∧ 0 < s.remainingSeconds then
    { s with previousCountdownMillis := t
           , remainingSeconds := s.remainingSeconds - 1
           , sevseg := SevSegOut.number (mmss (s.remainingSeconds - 1)) }
  else if s.countdownStarted = true ∧ s.remainingSeconds ≤ 0 then
    { s with sevseg := SevSegOut.dashes
           , countdownStarted := false
           , lcdRow0 := "System Ready"
           , lcdRow1 := "Press button..." }
  else s

/-- LED Off Timing section: deassert either LED after the blink duration. -/
def ledStep (t : Nat) (s : LoopState) : LoopState :=
  let s1 :=
    if s.greenLedState = true ∧ timeElapsed t s.ledOffMillis ledBlinkDuration then
      { s with greenLedState := false }
    else s
  if s1.redLedState = true ∧ timeElapsed t s1.ledOffMillis ledBlinkDuration then
    { s1 with redLedState := false }
  else s1

/-- RFID Cooldown section: re-arm the reader once the pause has elapsed. -/
def cooldownStep (t : Nat) (s : LoopState) : LoopState :=
  if s.rfidReady = false ∧ timeElapsed t s.rfidCooldownMillis rfidPauseDuration then
    if s.countdownStarted = false then
      { s with rfidReady := true, lcdRow0 := "System Ready", lcdRow1 := "Press button..." }
    else { s with rfidReady := true }
  else s

/-- RFID Reading section: when the poll gate is open and a card read succeeds,
enter cooldown, match the UID and run the login/logout/unknown branch. -/
def rfidStep (t : Nat) (card : Option (List Nat)) (s : LoopState) : LoopState × List Event :=
  if s.rfidReady = true ∧ timeElapsed t s.previousRfidCheckMillis rfidCheckInterval then
    let s0 := { s with previousRfidCheckMillis := t }
    match card with
    | none => (s0, [])
    | some bytes =>
      let s1 := { s0 with rfidReady := false, rfidCooldownMillis := t }
      let uid := uidStringOf bytes
      let idx := getIndexFromUID uid
      if idx ≠ -1 then
        let i := idx.toNat
        let name := names.getD i ""
        if s1.insideSession.getD i false = false then
          ({ s1 with insideSession := s1.insideSession.set i true
                   , lcdRow0 := "Willkommen", lcdRow1 := name
                   , greenLedState := true, redLedState := false
                   , ledOffMillis := t },
           [Event.login uid name])
        else
          ({ s1 with insideSession := s1.insideSession.set i false
                   , lcdRow0 := "Auf Wiedersehen", lcdRow1 := name
                   , greenLedState := true, redLedState := false
                   , ledOffMillis := t },
           [Event.logout uid name])
      else
        ({ s1 with lcdRow0 := "Karte ungueltig", lcdRow1 := "           "
                 , redLedState := true, greenLedState := false
                 , ledOffMillis := t },
         [])
  else (s, [])

/-- 7-Segment Refresh section: only the refresh timestamp is state. -/
def refreshStep (t : Nat) (s : LoopState) : LoopState :=
  if timeElapsed t s.previousRefreshMillis refreshInterval then
    { s with previousRefreshMillis := t }
  else s

/-- One iteration of `loop()`, in source order, returning the successor state
and the serial events printed during the iteration. -/
def loopStep (s : LoopState) (inp : LoopInput) : LoopState × List Event :=
  let r1 := buttonStep inp s
  let s2 := countdownStep inp.currentMillis r1.1
  let s3 := ledStep inp.currentMillis s2
  let s4 := cooldownStep inp.currentMillis s3
  let r5 := rfidStep inp.currentMillis inp.cardRead s4
  let s6 := refreshStep inp.currentMillis r5.1
  (s6, r1.2 ++ r5.2)

/-- The state right after `setup()` completes, with the presence table left as
a parameter (at power-on it is `resetInsideSession`). -/
def startState (p : List Bool) : LoopState :=
  { previousCountdownMillis := 0
  , remainingSeconds := initialCountdownSeconds
  , ledOffMillis := 0
  , rfidCooldownMillis := 0
  , previousRefreshMillis := 0
  , previousRfidCheckMillis := 0
  , greenLedState := false
  , redLedState := false
  , rfidReady := true
  , countdownStarted := false
  , buttonWasPressed := false
  , insideSession := p
  , sevseg := SevSegOut.dashes
  , lcdRow0 := "System Ready"
  , lcdRow1 := "Press button..." }

/-- The power-on state: `setup()` leaves every presence flag `false`. -/
def readyIdleState : LoopState := startState resetInsideSession

-- Frame lemmas: fields left unchanged by each section of the loop.
variable (inp : LoopInput) (t : Nat) (c : Option (List Nat)) (s : LoopState)

@[simp] theorem buttonStep_ledOffMillis : (buttonStep inp s).1.ledOffMillis = s.ledOffMillis := by
  unfold buttonStep; split_ifs <;> rfl

@[simp] theorem buttonStep_rfidCooldownMillis : (buttonStep inp s).1.rfidCooldownMillis = s.rfidCooldownMillis := by
  unfold buttonStep; split_ifs <;> rfl

@[simp] theorem buttonStep_previousRefreshMillis : (buttonStep inp s).1.previousRefreshMillis = s.previousRefreshMillis := by
  unfold buttonStep; split_ifs <;> rfl

@[simp] theorem buttonStep_previousRfidCheckMillis : (buttonStep inp s).1.previousRfidCheckMillis = s.previousRfidCheckMillis := by
  unfold buttonStep; split_ifs <;> rfl

@[simp] theorem buttonStep_greenLedState : (buttonStep inp s).1.greenLedState = s.greenLedState := by
  unfold buttonStep; split_ifs <;> rfl

@[simp] theorem buttonStep_redLedState : (buttonStep inp s).1.redLedState = s.redLedState := by
  unfold buttonStep; split_ifs <;> rfl

@[simp] theorem buttonStep_rfidReady : (buttonStep inp s).1.rfidReady = s.rfidReady := by
  unfold buttonStep; split_ifs <;> rfl

@[simp] theorem countdownStep_ledOffMillis : (countdownStep t s).ledOffMillis = s.ledOffMillis := by
  unfold countdownStep; split_ifs <;> rfl

@[simp] theorem countdownStep_rfidCooldownMillis : (countdownStep t s).rfidCooldownMillis = s.rfidCooldownMillis := by
  unfold countdownStep; split_ifs <;> rfl

@[simp] theorem countdownStep_previousRefreshMillis : (countdownStep t s).previousRefreshMillis = s.previousRefreshMillis := by
  unfold countdownStep; split_ifs <;> rfl

@[simp] theorem countdownStep_previousRfidCheckMillis : (countdownStep t s).previousRfidCheckMillis = s.previousRfidCheckMillis := by
  unfold countdownStep; split_ifs <;> rfl

@[simp] theorem countdownStep_greenLedState : (countdownStep t s).greenLedState = s.greenLedState := by
  unfold countdownStep; split_ifs <;> rfl

@[simp] theorem countdownStep_redLedState : (countdownStep t s).redLedState = s.redLedState := by
  unfold countdownStep; split_ifs <;> rfl

@[simp] theorem countdownStep_rfidReady : (countdownStep t s).rfidReady = s.rfidReady := by
  unfold countdownStep; split_ifs <;> rfl

@[simp] theorem countdownStep_buttonWasPressed : (countdownStep t s).buttonWasPressed = s.buttonWasPressed := by
  unfold countdownStep; split_ifs <;> rfl

@[simp] theorem countdownStep_insideSession : (countdownStep t s).insideSession = s.insideSession := by
  unfold countdownStep; split_ifs <;> rfl

@[simp] theorem ledStep_previousCountdownMillis : (ledStep t s).previousCountdownMillis = s.previousCountdownMillis := by
  unfold ledStep; dsimp only; split_ifs <;> rfl

@[simp] theorem ledStep_remainingSeconds : (ledStep t s).remainingSeconds = s.remainingSeconds := by
  unfold ledStep; dsimp only; split_ifs <;> rfl

@[simp] theorem ledStep_ledOffMillis : (ledStep t s).ledOffMillis = s.ledOffMillis := by
  unfold ledStep; dsimp only; split_ifs <;> rfl

@[simp] theorem ledStep_rfidCooldownMillis : (ledStep t s).rfidCooldownMillis = s.rfidCooldownMillis := by
  unfold ledStep; dsimp only; split_ifs <;> rfl

@[simp] theorem ledStep_previousRefreshMillis : (ledStep t s).previousRefreshMillis = s.previousRefreshMillis := by
  unfold ledStep; dsimp only; split_ifs <;> rfl

@[simp] theorem ledStep_previousRfidCheckMillis : (ledStep t s).previousRfidCheckMillis = s.previousRfidCheckMillis := by
  unfold ledStep; dsimp only; split_ifs <;> rfl

@[simp] theorem ledStep_rfidReady : (ledStep t s).rfidReady = s.rfidReady := by
  unfold ledStep; dsimp only; split_ifs <;> rfl

@[simp] theorem ledStep_countdownStarted : (ledStep t s).countdownStarted = s.countdownStarted := by
  unfold ledStep; dsimp only; split_ifs <;> rfl

@[simp] theorem ledStep_buttonWasPressed : (ledStep t s).buttonWasPressed = s.buttonWasPressed := by
  unfold ledStep; dsimp only; split_ifs <;> rfl

@[simp] theorem ledStep_insideSession : (ledStep t s).insideSession = s.insideSession := by
  unfold ledStep; dsimp only; split_ifs <;> rfl

@[simp] theorem ledStep_sevseg : (ledStep t s).sevseg = s.sevseg := by
  unfold ledStep; dsimp only; split_ifs <;> rfl

@[simp] theorem ledStep_lcdRow0 : (ledStep t s).lcdRow0 = s.lcdRow0 := by
  unfold ledStep; dsimp only; split_ifs <;> rfl

@[simp] theorem ledStep_lcdRow1 : (ledStep t s).lcdRow1 = s.lcdRow1 := by
  unfold ledStep; dsimp only; split_ifs <;> rfl

@[simp] theorem cooldownStep_previousCountdownMillis : (cooldownStep t s).previousCountdownMillis = s.previousCountdownMillis := by
  unfold cooldownStep; split_ifs <;> rfl

@[simp] theorem cooldownStep_remainingSeconds : (cooldownStep t s).remainingSeconds = s.remainingSeconds := by
  unfold cooldownStep; split_ifs <;> rfl

@[simp] theorem cooldownStep_ledOffMillis : (cooldownStep t s).ledOffMillis = s.ledOffMillis := by
  unfold cooldownStep; split_ifs <;> rfl

@[simp] theorem cooldownStep_rfidCooldownMillis : (cooldownStep t s).rfidCooldownMillis = s.rfidCooldownMillis := by
  unfold cooldownStep; split_ifs <;> rfl

@[simp] theorem cooldownStep_previousRefreshMillis : (cooldownStep t s).previousRefreshMillis = s.previousRefreshMillis := by
  unfold cooldownStep; split_ifs <;> rfl

@[simp] theorem cooldownStep_previousRfidCheckMillis : (cooldownStep t s).previousRfidCheckMillis = s.previousRfidCheckMillis := by
  unfold cooldownStep; split_ifs <;> rfl

@[simp] theorem cooldownStep_greenLedState : (cooldownStep t s).greenLedState = s.greenLedState := by
  unfold cooldownStep; split_ifs <;> rfl

@[simp] theorem cooldownStep_redLedState : (cooldownStep t s).redLedState = s.redLedState := by
  unfold cooldownStep; split_ifs <;> rfl

@[simp] theorem cooldownStep_countdownStarted : (cooldownStep t s).countdownStarted = s.countdownStarted := by
  unfold cooldownStep; split_ifs <;> rfl

@[simp] theorem cooldownStep_buttonWasPressed : (cooldownStep t s).buttonWasPressed = s.buttonWasPressed := by
  unfold cooldownStep; split_ifs <;> rfl

@[simp] theorem cooldownStep_insideSession : (cooldownStep t s).insideSession = s.insideSession := by
  unfold cooldownStep; split_ifs <;> rfl

@[simp] theorem cooldownStep_sevseg : (cooldownStep t s).sevseg = s.sevseg := by
  unfold cooldownStep; split_ifs <;> rfl

@[simp] theorem rfidStep_previousCountdownMillis : (rfidStep t c s).1.previousCountdownMillis = s.previousCountdownMillis := by
  unfold rfidStep; rcases c with _ | bytes <;> dsimp only <;> split_ifs <;> rfl

@[simp] theorem rfidStep_remainingSeconds : (rfidStep t c s).1.remainingSeconds = s.remainingSeconds := by
  unfold rfidStep; rcases c with _ | bytes <;> dsimp only <;> split_ifs <;> rfl

@[simp] theorem rfidStep_previousRefreshMillis : (rfidStep t c s).1.previousRefreshMillis = s.previousRefreshMillis := by
  unfold rfidStep; rcases c with _ | bytes <;> dsimp only <;> split_ifs <;> rfl

@[simp] theorem rfidStep_countdownStarted : (rfidStep t c s).1.countdownStarted = s.countdownStarted := by
  unfold rfidStep; rcases c with _ | bytes <;> dsimp only <;> split_ifs <;> rfl

@[simp] theorem rfidStep_buttonWasPressed : (rfidStep t c s).1.buttonWasPressed = s.buttonWasPressed := by
  unfold rfidStep; rcases c with _ | bytes <;> dsimp only <;> split_ifs <;> rfl

@[simp] theorem rfidStep_sevseg : (rfidStep t c s).1.sevseg = s.sevseg := by
  unfold rfidStep; rcases c with _ | bytes <;> dsimp only <;> split_ifs <;> rfl

@[simp] theorem refreshStep_previousCountdownMillis : (refreshStep t s).previousCountdownMillis = s.previousCountdownMillis := by
  unfold refreshStep; split_ifs <;> rfl

@[simp] theorem refreshStep_remainingSeconds : (refreshStep t s).remainingSeconds = s.remainingSeconds := by
  unfold refreshStep; split_ifs <;> rfl

@[simp] theorem refreshStep_ledOffMillis : (refreshStep t s).ledOffMillis = s.ledOffMillis := by
  unfold refreshStep; split_ifs <;> rfl

@[simp] theorem refreshStep_rfidCooldownMillis : (refreshStep t s).rfidCooldownMillis = s.rfidCooldownMillis := by
  unfold refreshStep; split_ifs <;> rfl

@[simp] theorem refreshStep_previousRfidCheckMillis : (refreshStep t s).previousRfidCheckMillis = s.previousRfidCheckMillis := by
  unfold refreshStep; split_ifs <;> rfl

@[simp] theorem refreshStep_greenLedState : (refreshStep t s).greenLedState = s.greenLedState := by
  unfold refreshStep; split_ifs <;> rfl

@[simp] theorem refreshStep_redLedState : (refreshStep t s).redLedState = s.redLedState := by
  unfold refreshStep; split_ifs <;> rfl

@[simp] theorem refreshStep_rfidReady : (refreshStep t s).rfidReady = s.rfidReady := by
  unfold refreshStep; split_ifs <;> rfl

@[simp] theorem refreshStep_countdownStarted : (refreshStep t s).countdownStarted = s.countdownStarted := by
  unfold refreshStep; split_ifs <;> rfl

@[simp] theorem refreshStep_buttonWasPressed : (refreshStep t s).buttonWasPressed = s.buttonWasPressed := by
  unfold refreshStep; split_ifs <;> rfl

@[simp] theorem refreshStep_insideSession : (refreshStep t s).insideSession = s.insideSession := by
  unfold refreshStep; split_ifs <;> rfl

@[simp] theorem refreshStep_sevseg : (refreshStep t s).sevseg = s.sevseg := by
  unfold refreshStep; split_ifs <;> rfl

@[simp] theorem refreshStep_lcdRow0 : (refreshStep t s).lcdRow0 = s.lcdRow0 := by
  unfold refreshStep; split_ifs <;> rfl

@[simp] theorem refreshStep_lcdRow1 : (refreshStep t s).lcdRow1 = s.lcdRow1 := by
  unfold refreshStep; split_ifs <;> rfl


theorem usub_self (a : Nat) : usub a a = 0 := by
  unfold usub U32
  omega

-- Equation lemmas, one per control-flow branch of each section.

theorem buttonStep_fire (hbtn : inp.buttonIsPressed = true)
    (hwas : s.buttonWasPressed = false) (hidle : s.countdownStarted = false) :
    buttonStep inp s =
      ({ s with countdownStarted := true
              , remainingSeconds := initialCountdownSeconds
              , previousCountdownMillis := inp.currentMillis
              , insideSession := resetInsideSession
              , lcdRow0 := "Countdown Laeuft"
              , lcdRow1 := "           "
              , sevseg := SevSegOut.number (mmss initialCountdownSeconds)
              , buttonWasPressed := true },
       [Event.newSession]) := by
  unfold buttonStep
  rw [if_pos ⟨hbtn, hwas, hidle⟩, hbtn]

theorem buttonStep_skip
    (h : ¬(inp.buttonIsPressed = true ∧ s.buttonWasPressed = false ∧
        s.countdownStarted = false)) :
    buttonStep inp s = ({ s with buttonWasPressed := inp.buttonIsPressed }, []) := by
  unfold buttonStep
  rw [if_neg h]

theorem countdownStep_skip
    (h1 : ¬(s.countdownStarted = true ∧
        timeElapsed t s.previousCountdownMillis countdownInterval ∧
        0 < s.remainingSeconds))
    (h2 : ¬(s.countdownStarted = true ∧ s.remainingSeconds ≤ 0)) :
    countdownStep t s = s := by
  unfold countdownStep
  rw [if_neg h1, if_neg h2]

theorem countdownStep_dec (h1 : s.countdownStarted = true)
    (h2 : timeElapsed t s.previousCountdownMillis countdownInterval)
    (h3 : 0 < s.remainingSeconds) :
    countdownStep t s =
      { s with previousCountdownMillis := t
             , remainingSeconds := s.remainingSeconds - 1
             , sevseg := SevSegOut.number (mmss (s.remainingSeconds - 1)) } := by
  unfold countdownStep
  rw [if_pos ⟨h1, h2, h3⟩]

theorem countdownStep_fin (h1 : s.countdownStarted = true)
    (h2 : s.remainingSeconds ≤ 0) :
    countdownStep t s =
      { s with sevseg := SevSegOut.dashes
             , countdownStarted := false
             , lcdRow0 := "System Ready"
             , lcdRow1 := "Press button..." } := by
  unfold countdownStep
  rw [if_neg (by rintro ⟨-, -, h3⟩; omega), if_pos ⟨h1, h2⟩]

theorem cooldownStep_skip
    (h : ¬(s.rfidReady = false ∧ timeElapsed t s.rfidCooldownMillis rfidPauseDuration)) :
    cooldownStep t s = s := by
  unfold cooldownStep
  rw [if_neg h]

theorem cooldownStep_rearm (h1 : s.rfidReady = false)
    (h2 : timeElapsed t s.rfidCooldownMillis rfidPauseDuration) :
    cooldownStep t s =
      if s.countdownStarted = false then
        { s with rfidReady := true, lcdRow0 := "System Ready", lcdRow1 := "Press button..." }
      else { s with rfidReady := true } := by
  unfold cooldownStep
  rw [if_pos ⟨h1, h2⟩]

theorem rfidStep_closed
    (h : ¬(s.rfidReady = true ∧ timeElapsed t s.previousRfidCheckMillis rfidCheckInterval)) :
    rfidStep t c s = (s, []) := by
  unfold rfidStep
  rw [if_neg h]

@[simp] theorem rfidStep_none_insideSession :
    (rfidStep t none s).1.insideSession = s.insideSession := by
  unfold rfidStep
  dsimp only
  split_ifs <;> rfl

@[simp] theorem rfidStep_none_events : (rfidStep t none s).2 = [] := by
  unfold rfidStep
  dsimp only
  split_ifs <;> rfl

@[simp] theorem rfidStep_count_newSession :
    (rfidStep t c s).2.count Event.newSession = 0 := by
  unfold rfidStep
  rcases c with _ | bytes <;> dsimp only <;> split_ifs <;> simp


@[simp] theorem rfidStep_newSession_not_mem :
    Event.newSession ∉ (rfidStep t c s).2 := by
  unfold rfidStep
  rcases c with _ | bytes <;> dsimp only <;> split_ifs <;> simp

-- The sections after Button Logic neither read nor write the edge-detector
-- memory, so a change of `buttonWasPressed` commutes with each of them.

theorem countdownStep_setBwp (b : Bool) :
    countdownStep t { s with buttonWasPressed := b } =
      { countdownStep t s with buttonWasPressed := b } := by
  cases s
  dsimp only [countdownStep]
  split_ifs <;> rfl

theorem ledStep_setBwp (b : Bool) :
    ledStep t { s with buttonWasPressed := b } =
      { ledStep t s with buttonWasPressed := b } := by
  cases s
  dsimp only [ledStep]
  split_ifs <;> rfl

theorem cooldownStep_setBwp (b : Bool) :
    cooldownStep t { s with buttonWasPressed := b } =
      { cooldownStep t s with buttonWasPressed := b } := by
  cases s
  dsimp only [cooldownStep]
  split_ifs <;> rfl

theorem rfidStep_setBwp (b : Bool) :
    rfidStep t c { s with buttonWasPressed := b } =
      ({ (rfidStep t c s).1 with buttonWasPressed := b }, (rfidStep t c s).2) := by
  cases s
  rcases c with _ | bytes <;> dsimp only [rfidStep] <;> split_ifs <;> rfl

theorem refreshStep_setBwp (b : Bool) :
    refreshStep t { s with buttonWasPressed := b } =
      { refreshStep t s with buttonWasPressed := b } := by
  cases s
  dsimp only [refreshStep]
  split_ifs <;> rfl

theorem usub_of_le (a b : Nat) (h : b ≤ a) (h2 : a - b < U32) : usub a b = a - b := by
  unfold usub U32 at *
  omega

/-- C8: every periodic task guard decides elapse by unsigned 32-bit
subtraction, and this is correct across a single wraparound of the counter:
whenever the true elapsed time `current - last` is below one full cycle, the
guard fires iff at least `period` has elapsed. -/
theorem guard_wraparound_correct (current last period : Nat)
    (h1 : last ≤ current) (h2 : current - last < U32) :
    usub current last = current - last ∧
    (timeElapsed current last period ↔ period ≤ current - last) := by
  have h := usub_of_le current last h1 h2
  exact ⟨h, by unfold timeElapsed; rw [h]⟩

theorem guard_wraparound_correct_witness :
    (4294967000 : Nat) ≤ 4294968000 ∧ 4294968000 - 4294967000 < U32 ∧
    (usub 4294968000 4294967000 = 4294968000 - 4294967000 ∧
      (timeElapsed 4294968000 4294967000 1000 ↔ 1000 ≤ 4294968000 - 4294967000)) :=
  ⟨by decide, by decide,
    guard_wraparound_correct 4294968000 4294967000 1000 (by decide) (by decide)⟩

/-- C5 counterexample: at the power-on state, an open poll whose card read
fails (`PICC_IsNewCardPresent && PICC_ReadCardSerial` is false) shows no
rejection message, pulses no error indicator, enters no cooldown and emits
nothing — contradicting the claim that it is treated like an Unauthorized
scan. -/
theorem failed_read_not_unauthorized_cex :
    (loopStep readyIdleState ⟨100, false, none⟩).1.rfidReady = true ∧
    (loopStep readyIdleState ⟨100, false, none⟩).1.redLedState = false ∧
    (loopStep readyIdleState ⟨100, false, none⟩).1.lcdRow0 = "System Ready" ∧
    (loopStep readyIdleState ⟨100, false, none⟩).1.rfidCooldownMillis = 0 ∧
    (loopStep readyIdleState ⟨100, false, none⟩).2 = [] := by decide

/-- C5 amended: a failed identifier read during an open poll is treated like
no card present — the poll timestamp is updated, but the RFID section changes
nothing else: no cooldown, no message, no indicator, no event; the next poll
interval tries again. -/
theorem failed_read_skipped (s : LoopState) (t : Nat)
    (hready : s.rfidReady = true)
    (hpoll : timeElapsed t s.previousRfidCheckMillis rfidCheckInterval) :
    rfidStep t none s = ({ s with previousRfidCheckMillis := t }, []) := by
  unfold rfidStep
  rw [if_pos ⟨hready, hpoll⟩]

theorem failed_read_skipped_witness :
    readyIdleState.rfidReady = true ∧
    timeElapsed 100 readyIdleState.previousRfidCheckMillis rfidCheckInterval ∧
    rfidStep 100 none readyIdleState =
      ({ readyIdleState with previousRfidCheckMillis := 100 }, []) :=
  ⟨rfl, by decide, failed_read_skipped readyIdleState 100 rfl (by decide)⟩

/-- Equation for the RFID section when the gate is open and the scanned
identifier matches no registry entry. -/
theorem rfidStep_unknown (s : LoopState) (t : Nat) (bytes : List Nat)
    (hready : s.rfidReady = true)
    (hpoll : timeElapsed t s.previousRfidCheckMillis rfidCheckInterval)
    (hunk : getIndexFromUID (uidStringOf bytes) = -1) :
    rfidStep t (some bytes) s =
      ({ s with previousRfidCheckMillis := t, rfidReady := false
              , rfidCooldownMillis := t
              , lcdRow0 := "Karte ungueltig", lcdRow1 := "           "
              , redLedState := true, greenLedState := false
              , ledOffMillis := t }, []) := by
  unfold rfidStep
  rw [if_pos ⟨hready, hpoll⟩]
  simp [hunk]

/-- Equation for the RFID section when the gate is open and the scanned
identifier matches registry index `i`: the presence flag toggles and the
matching LOGIN/LOGOUT event is emitted. -/
theorem rfidStep_match (s : LoopState) (t : Nat) (bytes : List Nat) (i : Nat)
    (hready : s.rfidReady = true)
    (hpoll : timeElapsed t s.previousRfidCheckMillis rfidCheckInterval)
    (hidx : getIndexFromUID (uidStringOf bytes) = (i : Int)) :
    rfidStep t (some bytes) s =
      (if s.insideSession.getD i false = false then
        ({ s with previousRfidCheckMillis := t, rfidReady := false
                , rfidCooldownMillis := t
                , insideSession := s.insideSession.set i true
                , lcdRow0 := "Willkommen", lcdRow1 := names.getD i ""
                , greenLedState := true, redLedState := false
                , ledOffMillis := t },
         [Event.login (uidStringOf bytes) (names.getD i "")])
      else
        ({ s with previousRfidCheckMillis := t, rfidReady := false
                , rfidCooldownMillis := t
                , insideSession := s.insideSession.set i false
                , lcdRow0 := "Auf Wiedersehen", lcdRow1 := names.getD i ""
                , greenLedState := true, redLedState := false
                , ledOffMillis := t },
         [Event.logout (uidStringOf bytes) (names.getD i "")])) := by
  have hne : ((i : Int) ≠ -1) := by omega
  unfold rfidStep
  rw [if_pos ⟨hready, hpoll⟩]
  simp [hidx, hne]

/-- C6: a scanned identifier matching no registry entry changes no presence
flag and emits no event; only the rejection display, the error indicator and
the cooldown are driven — and the branch never reads the session state, so
this holds whether the session is Idle or Active. -/
theorem unknown_uid_no_mutation (s : LoopState) (t : Nat) (bytes : List Nat)
    (hready : s.rfidReady = true)
    (hpoll : timeElapsed t s.previousRfidCheckMillis rfidCheckInterval)
    (hunk : getIndexFromUID (uidStringOf bytes) = -1) :
    (rfidStep t (some bytes) s).1.insideSession = s.insideSession ∧
    (rfidStep t (some bytes) s).2 = [] ∧
    (rfidStep t (some bytes) s).1.lcdRow0 = "Karte ungueltig" ∧
    (rfidStep t (some bytes) s).1.redLedState = true ∧
    (rfidStep t (some bytes) s).1.rfidReady = false ∧
    (∀ b : Bool, rfidStep t (some bytes) { s with countdownStarted := b } =
      ({ (rfidStep t (some bytes) s).1 with countdownStarted := b }, [])) := by
  rw [rfidStep_unknown s t bytes hready hpoll hunk]
  refine ⟨rfl, rfl, rfl, rfl, rfl, fun b => ?_⟩
  rw [rfidStep_unknown { s with countdownStarted := b } t bytes hready hpoll hunk]

theorem unknown_uid_no_mutation_witness :
    readyIdleState.rfidReady = true ∧
    timeElapsed 100 readyIdleState.previousRfidCheckMillis rfidCheckInterval ∧
    getIndexFromUID (uidStringOf [1, 2, 3]) = -1 ∧
    ((rfidStep 100 (some [1, 2, 3]) readyIdleState).1.insideSession =
        readyIdleState.insideSession ∧
      (rfidStep 100 (some [1, 2, 3]) readyIdleState).2 = []) :=
  ⟨rfl, by decide, by decide,
    ((unknown_uid_no_mutation readyIdleState 100 [1, 2, 3] rfl (by decide)
      (by decide)).1),
    ((unknown_uid_no_mutation readyIdleState 100 [1, 2, 3] rfl (by decide)
      (by decide)).2.1)⟩

/-- C9: the registry declares four slots but initialises only three, so the
fourth entry is the empty string; an empty constructed identifier therefore
matches index 3 rather than returning -1, and the scan is processed as an
authorized login with an empty name in the emitted event. -/
theorem empty_uid_matches_slot_three (s : LoopState) (t : Nat)
    (hready : s.rfidReady = true)
    (hpoll : timeElapsed t s.previousRfidCheckMillis rfidCheckInterval)
    (hout : s.insideSession.getD 3 false = false) :
    authorizedUIDs.length = numCards ∧
    authorizedUIDs.getD 3 "nonempty" = "" ∧
    uidStringOf [] = "" ∧
    getIndexFromUID (uidStringOf []) = 3 ∧
    (rfidStep t (some []) s).2 = [Event.login "" ""] ∧
    (rfidStep t (some []) s).1.insideSession = s.insideSession.set 3 true := by
  have h := rfidStep_match s t [] 3 hready hpoll (by decide)
  rw [if_pos hout] at h
  rw [h]
  refine ⟨by decide, by decide, by decide, by decide, ?_, rfl⟩
  show [Event.login (uidStringOf []) (names.getD 3 "")] = [Event.login "" ""]
  decide

theorem empty_uid_matches_slot_three_witness :
    readyIdleState.rfidReady = true ∧
    timeElapsed 100 readyIdleState.previousRfidCheckMillis rfidCheckInterval ∧
    readyIdleState.insideSession.getD 3 false = false ∧
    ((rfidStep 100 (some []) readyIdleState).2 = [Event.login "" ""] ∧
      (rfidStep 100 (some []) readyIdleState).1.insideSession =
        readyIdleState.insideSession.set 3 true) :=
  ⟨rfl, by decide, by decide,
    (empty_uid_matches_slot_three readyIdleState 100 rfl (by decide)
      (by decide)).2.2.2.2.1,
    (empty_uid_matches_slot_three readyIdleState 100 rfl (by decide)
      (by decide)).2.2.2.2.2⟩


/-- C3: a rising edge of the start button while the session is Idle starts a
session: the state becomes Active, the countdown is reset to the configured
full length, exactly one NEW_SESSION event is emitted first, and (in an
iteration without a simultaneous card read) every presence flag is reset to
Outside — regardless of what the previous session left behind. -/
theorem session_start_resets (s : LoopState) (inp : LoopInput)
    (hidle : s.countdownStarted = false)
    (hwas : s.buttonWasPressed = false)
    (hbtn : inp.buttonIsPressed = true) :
    (loopStep s inp).1.countdownStarted = true ∧
    (loopStep s inp).1.remainingSeconds = initialCountdownSeconds ∧
    (loopStep s inp).2.count Event.newSession = 1 ∧
    (loopStep s inp).2.head? = some Event.newSession ∧
    (inp.cardRead = none →
      (loopStep s inp).1.insideSession = resetInsideSession ∧
      (loopStep s inp).2 = [Event.newSession]) := by
  have hb := buttonStep_fire inp s hbtn hwas hidle
  simp only [loopStep, hb]
  rw [countdownStep_skip]
  · refine ⟨by simp, by simp, ?_, ?_, ?_⟩
    · simp [List.count_cons]
    · simp
    · intro hc
      rw [hc]
      simp
  · rintro ⟨-, h, -⟩
    simp [timeElapsed, usub_self, countdownInterval] at h
  · rintro ⟨-, h⟩
    norm_num [initialCountdownSeconds] at h

theorem session_start_resets_witness :
    readyIdleState.countdownStarted = false ∧
    readyIdleState.buttonWasPressed = false ∧
    (LoopInput.mk 40 true none).buttonIsPressed = true ∧
    ((loopStep readyIdleState (LoopInput.mk 40 true none)).1.countdownStarted = true ∧
      (loopStep readyIdleState (LoopInput.mk 40 true none)).1.remainingSeconds =
        initialCountdownSeconds ∧
      (loopStep readyIdleState (LoopInput.mk 40 true none)).2.count Event.newSession = 1 ∧
      (loopStep readyIdleState (LoopInput.mk 40 true none)).2.head? = some Event.newSession ∧
      ((LoopInput.mk 40 true none).cardRead = none →
        (loopStep readyIdleState (LoopInput.mk 40 true none)).1.insideSession =
          resetInsideSession ∧
        (loopStep readyIdleState (LoopInput.mk 40 true none)).2 = [Event.newSession])) :=
  ⟨rfl, rfl, rfl, session_start_resets readyIdleState (LoopInput.mk 40 true none) rfl rfl rfl⟩


/-- C10: scan processing is not gated on the session state — while the session
is Idle, an open poll that reads an authorized card still toggles the presence
flag and emits the LOGIN/LOGOUT event, so presence can change outside any
session. -/
theorem scan_not_gated_on_session (s : LoopState) (inp : LoopInput)
    (bytes : List Nat) (i : Nat)
    (hidle : s.countdownStarted = false)
    (hbtn : inp.buttonIsPressed = false)
    (hcard : inp.cardRead = some bytes)
    (hready : s.rfidReady = true)
    (hpoll : timeElapsed inp.currentMillis s.previousRfidCheckMillis rfidCheckInterval)
    (hidx : getIndexFromUID (uidStringOf bytes) = (i : Int)) :
    (loopStep s inp).1.insideSession =
      s.insideSession.set i (!(s.insideSession.getD i false)) ∧
    (loopStep s inp).2 =
      [if s.insideSession.getD i false = false then
        Event.login (uidStringOf bytes) (names.getD i "")
      else Event.logout (uidStringOf bytes) (names.getD i "")] ∧
    (loopStep s inp).1.countdownStarted = false := by
  have hb := buttonStep_skip inp s (by simp [hbtn])
  simp only [loopStep, hb]
  rw [hcard]
  rw [countdownStep_skip _ _ (by simp [hidle]) (by simp [hidle])]
  rw [cooldownStep_skip _ _ (by simp [hready])]
  rw [rfidStep_match _ _ bytes i (by simp [hready]) (by simpa using hpoll) hidx]
  by_cases hin : s.insideSession.getD i false = false <;> simp at hin <;>
    refine ⟨?_, ?_, ?_⟩ <;> simp [hin, hidle]

theorem scan_not_gated_on_session_witness :
    readyIdleState.countdownStarted = false ∧
    (LoopInput.mk 100 false (some [12, 34, 56, 78])).buttonIsPressed = false ∧
    (LoopInput.mk 100 false (some [12, 34, 56, 78])).cardRead = some [12, 34, 56, 78] ∧
    readyIdleState.rfidReady = true ∧
    timeElapsed 100 readyIdleState.previousRfidCheckMillis rfidCheckInterval ∧
    getIndexFromUID (uidStringOf [12, 34, 56, 78]) = (1 : Int) ∧
    ((loopStep readyIdleState (LoopInput.mk 100 false (some [12, 34, 56, 78]))).1.insideSession =
        readyIdleState.insideSession.set 1
          (!(readyIdleState.insideSession.getD 1 false)) ∧
      (loopStep readyIdleState (LoopInput.mk 100 false (some [12, 34, 56, 78]))).2 =
        [if readyIdleState.insideSession.getD 1 false = false then
          Event.login (uidStringOf [12, 34, 56, 78]) (names.getD 1 "")
        else Event.logout (uidStringOf [12, 34, 56, 78]) (names.getD 1 "")] ∧
      (loopStep readyIdleState
          (LoopInput.mk 100 false (some [12, 34, 56, 78]))).1.countdownStarted = false) :=
  ⟨rfl, rfl, rfl, rfl, by decide, by decide,
    scan_not_gated_on_session readyIdleState (LoopInput.mk 100 false (some [12, 34, 56, 78]))
      [12, 34, 56, 78] 1 rfl rfl rfl rfl (by decide) (by decide)⟩


/-- A loop iteration whose button sample does not produce a session start (no
rising edge while Idle) only records the new button level; the rest of the
iteration is the remaining pipeline applied to the unchanged state. -/
theorem loopStep_noEdge (s : LoopState) (t : Nat) (card : Option (List Nat))
    (b : Bool)
    (h : ¬(b = true ∧ s.buttonWasPressed = false ∧ s.countdownStarted = false)) :
    loopStep s (LoopInput.mk t b card) =
      ({ refreshStep t
          (rfidStep t card (cooldownStep t (ledStep t (countdownStep t s)))).1 with
            buttonWasPressed := b },
       (rfidStep t card (cooldownStep t (ledStep t (countdownStep t s)))).2) := by
  have h1 := buttonStep_skip (LoopInput.mk t b card) s (by simpa using h)
  dsimp only at h1
  simp only [loopStep, h1]
  rw [countdownStep_setBwp, ledStep_setBwp, cooldownStep_setBwp, rfidStep_setBwp]
  dsimp only
  rw [refreshStep_setBwp]
  simp

/-- A session-Active state for concrete instantiations. -/
def runningState : LoopState := { startState resetInsideSession with countdownStarted := true }

/-- C7: a rising edge of the start button observed while the session is Active
has no effect: the resulting state differs from the same iteration without the
press only in the edge-detector memory `buttonWasPressed`, the emitted events
are identical, and no NEW_SESSION event is emitted. -/
theorem button_ignored_while_active (s : LoopState) (t : Nat)
    (card : Option (List Nat))
    (hact : s.countdownStarted = true)
    (hwas : s.buttonWasPressed = false) :
    (loopStep s (LoopInput.mk t true card)).1 =
      { (loopStep s (LoopInput.mk t false card)).1 with buttonWasPressed := true } ∧
    (loopStep s (LoopInput.mk t true card)).2 =
      (loopStep s (LoopInput.mk t false card)).2 ∧
    Event.newSession ∉ (loopStep s (LoopInput.mk t true card)).2 := by
  rw [loopStep_noEdge s t card true (by simp [hact]),
    loopStep_noEdge s t card false (by simp)]
  refine ⟨by dsimp only, rfl, by simp⟩

theorem button_ignored_while_active_witness :
    runningState.countdownStarted = true ∧
    runningState.buttonWasPressed = false ∧
    ((loopStep runningState (LoopInput.mk 50 true none)).1 =
      { (loopStep runningState (LoopInput.mk 50 false none)).1 with
          buttonWasPressed := true } ∧
    (loopStep runningState (LoopInput.mk 50 true none)).2 =
      (loopStep runningState (LoopInput.mk 50 false none)).2 ∧
    Event.newSession ∉ (loopStep runningState (LoopInput.mk 50 true none)).2) :=
  ⟨rfl, rfl, button_ignored_while_active runningState 50 none rfl rfl⟩


/-- A state in RFID cooldown for concrete instantiations. -/
def cooldownState : LoopState :=
  { startState resetInsideSession with rfidReady := false, rfidCooldownMillis := 500 }

/-- C4: once a read has occurred (`rfidReady = false`), polling is suspended
for the whole cooldown window: in any iteration whose timestamp is still
within `rfidPauseDuration` of the read, the card input is never consulted, and
(absent a session-start edge) no presence flag changes and no event is
emitted; moreover polling is also suspended whenever the poll interval has not
elapsed, so the reader is interrogated only when both gates are open. -/
theorem cooldown_suspends_polling (s : LoopState) (t : Nat)
    (hbusy : s.rfidReady = false)
    (hin : ¬ timeElapsed t s.rfidCooldownMillis rfidPauseDuration) :
    (∀ (btn : Bool) (c : Option (List Nat)),
      loopStep s (LoopInput.mk t btn c) = loopStep s (LoopInput.mk t btn none)) ∧
    (∀ (btn : Bool) (c : Option (List Nat)),
      ¬(btn = true ∧ s.buttonWasPressed = false ∧ s.countdownStarted = false) →
      (loopStep s (LoopInput.mk t btn c)).1.insideSession = s.insideSession ∧
      (loopStep s (LoopInput.mk t btn c)).2 = []) ∧
    (∀ (s2 : LoopState) (t2 : Nat) (btn : Bool) (c : Option (List Nat)),
      ¬ timeElapsed t2 s2.previousRfidCheckMillis rfidCheckInterval →
      loopStep s2 (LoopInput.mk t2 btn c) = loopStep s2 (LoopInput.mk t2 btn none)) := by
  refine ⟨?_, ?_, ?_⟩
  · intro btn c
    have hbb : buttonStep (LoopInput.mk t btn c) s =
        buttonStep (LoopInput.mk t btn none) s := rfl
    simp only [loopStep, hbb]
    rw [cooldownStep_skip _ _ (fun hx => hin (by simpa using hx.2))]
    rw [rfidStep_closed _ _ _ (by simp [hbusy]), rfidStep_closed _ _ _ (by simp [hbusy])]
  · intro btn c hnoedge
    rw [loopStep_noEdge s t c btn hnoedge]
    rw [cooldownStep_skip _ _ (fun hx => hin (by simpa using hx.2))]
    rw [rfidStep_closed _ _ _ (by simp [hbusy])]
    simp
  · intro s2 t2 btn c hpoll2
    have hbb : buttonStep (LoopInput.mk t2 btn c) s2 =
        buttonStep (LoopInput.mk t2 btn none) s2 := rfl
    simp only [loopStep, hbb]
    rw [rfidStep_closed _ _ _ (fun hx => hpoll2 (by simpa using hx.2)),
      rfidStep_closed _ _ _ (fun hx => hpoll2 (by simpa using hx.2))]

theorem cooldown_suspends_polling_witness :
    cooldownState.rfidReady = false ∧
    ¬ timeElapsed 600 cooldownState.rfidCooldownMillis rfidPauseDuration ∧
    ((∀ (btn : Bool) (c : Option (List Nat)),
      loopStep cooldownState (LoopInput.mk 600 btn c) =
        loopStep cooldownState (LoopInput.mk 600 btn none)) ∧
    (∀ (btn : Bool) (c : Option (List Nat)),
      ¬(btn = true ∧ cooldownState.buttonWasPressed = false ∧
          cooldownState.countdownStarted = false) →
      (loopStep cooldownState (LoopInput.mk 600 btn c)).1.insideSession =
        cooldownState.insideSession ∧
      (loopStep cooldownState (LoopInput.mk 600 btn c)).2 = []) ∧
    (∀ (s2 : LoopState) (t2 : Nat) (btn : Bool) (c : Option (List Nat)),
      ¬ timeElapsed t2 s2.previousRfidCheckMillis rfidCheckInterval →
      loopStep s2 (LoopInput.mk t2 btn c) = loopStep s2 (LoopInput.mk t2 btn none))) :=
  ⟨rfl, by decide, cooldown_suspends_polling cooldownState 600 rfl (by decide)⟩


/-- An Active state one second from expiry, for the C2 counterexample. -/
def aboutToExpireState : LoopState :=
  { startState resetInsideSession with countdownStarted := true, remainingSeconds := 1 }

/-- C2 counterexample: at the iteration in which `remainingSeconds` first
reaches zero (Active, `remainingSeconds = 1`, one second elapsed), the session
stays Active and the readout shows the number zero, not the idle placeholder;
the Active-to-Idle transition only happens at the next iteration.  This
contradicts the claim that the transition occurs at the iteration where
`remainingSeconds` first reaches zero. -/
theorem countdown_transition_deferred_cex :
    (loopStep aboutToExpireState (LoopInput.mk 1000 false none)).1.remainingSeconds = 0 ∧
    (loopStep aboutToExpireState (LoopInput.mk 1000 false none)).1.countdownStarted = true ∧
    (loopStep aboutToExpireState (LoopInput.mk 1000 false none)).1.sevseg ≠ SevSegOut.dashes ∧
    (loopStep (loopStep aboutToExpireState (LoopInput.mk 1000 false none)).1
        (LoopInput.mk 1001 false none)).1.countdownStarted = false := by decide

/-- C2 amended: while Active, `remainingSeconds` decreases by exactly one per
elapsed second and never below, and the Active-to-Idle transition
(`countdownStarted := false`, readout reset to the idle placeholder) occurs
exactly at the first iteration that observes the session Active with
`remainingSeconds` already at zero — the iteration after the final decrement —
never while `remainingSeconds` is positive, and with no further decrement at
or after zero. -/
theorem countdown_decrement_transition (s : LoopState) (t : Nat) (btn : Bool)
    (card : Option (List Nat))
    (hact : s.countdownStarted = true) :
    ((timeElapsed t s.previousCountdownMillis countdownInterval ∧ 0 < s.remainingSeconds) →
      (loopStep s (LoopInput.mk t btn card)).1.remainingSeconds = s.remainingSeconds - 1 ∧
      (loopStep s (LoopInput.mk t btn card)).1.previousCountdownMillis = t ∧
      (loopStep s (LoopInput.mk t btn card)).1.countdownStarted = true) ∧
    ((¬ timeElapsed t s.previousCountdownMillis countdownInterval ∧ 0 < s.remainingSeconds) →
      (loopStep s (LoopInput.mk t btn card)).1.remainingSeconds = s.remainingSeconds ∧
      (loopStep s (LoopInput.mk t btn card)).1.countdownStarted = true) ∧
    ((loopStep s (LoopInput.mk t btn card)).1.countdownStarted = false ↔
      s.remainingSeconds ≤ 0) ∧
    (s.remainingSeconds ≤ 0 →
      (loopStep s (LoopInput.mk t btn card)).1.remainingSeconds = s.remainingSeconds ∧
      (loopStep s (LoopInput.mk t btn card)).1.sevseg = SevSegOut.dashes) := by
  rw [loopStep_noEdge s t card btn (by simp [hact])]
  refine ⟨?_, ?_, ?_, ?_⟩
  · rintro ⟨h2, h3⟩
    have hc := countdownStep_dec t s hact h2 h3
    simp [hc, hact]
  · rintro ⟨h2, h3⟩
    have hc := countdownStep_skip t s (by rintro ⟨-, he, -⟩; exact h2 he)
      (by rintro ⟨-, he⟩; omega)
    simp [hc, hact]
  · by_cases hr : s.remainingSeconds ≤ 0
    · have hc := countdownStep_fin t s hact hr
      simp [hc, hr]
    · push_neg at hr
      by_cases ht : timeElapsed t s.previousCountdownMillis countdownInterval
      · have hc := countdownStep_dec t s hact ht hr
        simp [hc, hact]
        omega
      · have hc := countdownStep_skip t s (by rintro ⟨-, he, -⟩; exact ht he)
          (by rintro ⟨-, he⟩; omega)
        simp [hc, hact]
        omega
  · intro hr
    have hc := countdownStep_fin t s hact hr
    simp [hc]

theorem countdown_decrement_transition_witness :
    runningState.countdownStarted = true ∧
    (((timeElapsed 1000 runningState.previousCountdownMillis countdownInterval ∧
        0 < runningState.remainingSeconds) →
      (loopStep runningState (LoopInput.mk 1000 false none)).1.remainingSeconds =
        runningState.remainingSeconds - 1 ∧
      (loopStep runningState (LoopInput.mk 1000 false none)).1.previousCountdownMillis = 1000 ∧
      (loopStep runningState (LoopInput.mk 1000 false none)).1.countdownStarted = true) ∧
    ((¬ timeElapsed 1000 runningState.previousCountdownMillis countdownInterval ∧
        0 < runningState.remainingSeconds) →
      (loopStep runningState (LoopInput.mk 1000 false none)).1.remainingSeconds =
        runningState.remainingSeconds ∧
      (loopStep runningState (LoopInput.mk 1000 false none)).1.countdownStarted = true) ∧
    ((loopStep runningState (LoopInput.mk 1000 false none)).1.countdownStarted = false ↔
      runningState.remainingSeconds ≤ 0) ∧
    (runningState.remainingSeconds ≤ 0 →
      (loopStep runningState (LoopInput.mk 1000 false none)).1.remainingSeconds =
        runningState.remainingSeconds ∧
      (loopStep runningState (LoopInput.mk 1000 false none)).1.sevseg = SevSegOut.dashes)) :=
  ⟨rfl, countdown_decrement_transition runningState 1000 false none rfl⟩


theorem ledStep_skip
    (h1 : ¬(s.greenLedState = true ∧ timeElapsed t s.ledOffMillis ledBlinkDuration))
    (h2 : ¬(s.redLedState = true ∧ timeElapsed t s.ledOffMillis ledBlinkDuration)) :
    ledStep t s = s := by
  unfold ledStep
  dsimp only
  rw [if_neg h1, if_neg h2]

theorem ledStep_greenOff (h1 : s.greenLedState = true)
    (h2 : timeElapsed t s.ledOffMillis ledBlinkDuration)
    (h3 : s.redLedState = false) :
    ledStep t s = { s with greenLedState := false } := by
  simp [ledStep, h1, h2, h3]

theorem refreshStep_fire (h : timeElapsed t s.previousRefreshMillis refreshInterval) :
    refreshStep t s = { s with previousRefreshMillis := t } := by
  unfold refreshStep
  rw [if_pos h]

-- A canonical schedule of repeated successful scans of one identity: the
-- k-th scan happens at time 2000 * (k + 1), comfortably past both the
-- cooldown (1000 ms) and the poll interval (75 ms), with the button released.

/-- Raw UID bytes whose constructed identifier string is the corresponding
registry entry (the fourth entry is the empty read). -/
def uidBytes : List (List Nat) :=
  [[51, 249, 205, 166], [12, 34, 56, 78], [19, 106, 123, 19], []]

def scanInput (k : Nat) (bytes : List Nat) : LoopInput :=
  LoopInput.mk (2000 * (k + 1)) false (some bytes)

/-- Run `n` successive loop iterations, each presenting the same card on the
canonical schedule, collecting all emitted events. -/
def scanTrace (s : LoopState) (bytes : List Nat) : Nat → LoopState × List Event
  | 0 => (s, [])
  | n + 1 =>
    ((loopStep (scanTrace s bytes n).1 (scanInput n bytes)).1,
     (scanTrace s bytes n).2 ++ (loopStep (scanTrace s bytes n).1 (scanInput n bytes)).2)

/-- The event the k-th scan (0-based) of identity `i` must emit: LOGIN on even
k, LOGOUT on odd k. -/
def scanEvent (i k : Nat) : Event :=
  if k % 2 = 0 then Event.login (authorizedUIDs.getD i "") (names.getD i "")
  else Event.logout (authorizedUIDs.getD i "") (names.getD i "")

/-- The alternating LOGIN/LOGOUT event list for `n` scans of identity `i`. -/
def altEvents (i n : Nat) : List Event := (List.range n).map (scanEvent i)

/-- The loop state after `n` canonical scans of identity `i`, starting from
`startState p`. -/
def scanState (p : List Bool) (i n : Nat) : LoopState :=
  if n = 0 then startState p
  else
    { previousCountdownMillis := 0
    , remainingSeconds := initialCountdownSeconds
    , ledOffMillis := 2000 * n
    , rfidCooldownMillis := 2000 * n
    , previousRefreshMillis := 2000 * n
    , previousRfidCheckMillis := 2000 * n
    , greenLedState := true
    , redLedState := false
    , rfidReady := false
    , countdownStarted := false
    , buttonWasPressed := false
    , insideSession := p.set i (decide (n % 2 = 1))
    , sevseg := SevSegOut.dashes
    , lcdRow0 := if n % 2 = 1 then "Willkommen" else "Auf Wiedersehen"
    , lcdRow1 := names.getD i "" }

theorem uidBytes_uid (i : Nat) (hi : i < numCards) :
    uidStringOf (uidBytes.getD i []) = authorizedUIDs.getD i "" := by
  have h4 : i < 4 := by simpa [numCards] using hi
  interval_cases i <;> decide

theorem uidBytes_idx (i : Nat) (hi : i < numCards) :
    getIndexFromUID (uidStringOf (uidBytes.getD i [])) = (i : Int) := by
  have h4 : i < 4 := by simpa [numCards] using hi
  interval_cases i <;> decide

theorem getD_set_self (l : List Bool) (i : Nat) (b : Bool) (h : i < l.length) :
    (l.set i b)[i]?.getD false = b := by
  simp [List.getElem?_set_self, h]

theorem getD_set_ne (l : List Bool) (i j : Nat) (b : Bool) (h : j ≠ i) :
    (l.set i b)[j]?.getD false = l[j]?.getD false := by
  rw [List.getElem?_set_ne (by omega : i ≠ j)]

theorem parity_flip (n : Nat) : decide ((n + 1) % 2 = 1) = !decide (n % 2 = 1) := by
  have h2 : (n + 1) % 2 = 1 ↔ ¬(n % 2 = 1) := by omega
  rw [← decide_not]
  exact decide_eq_decide.mpr h2

theorem usub_scanGap (k : Nat) : usub (2000 * (k + 1)) (2000 * k) = 2000 := by
  have h := usub_of_le (2000 * (k + 1)) (2000 * k) (by omega) (by unfold U32; omega)
  omega


/-- First canonical scan from the start state: a LOGIN of identity `i`. -/
theorem scanState_step_zero (p : List Bool) (i : Nat) (hi : i < numCards)
    (hlen : p.length = numCards) (hout : p.getD i false = false) :
    loopStep (scanState p i 0) (scanInput 0 (uidBytes.getD i [])) =
      (scanState p i 1, [scanEvent i 0]) := by
  have hidx := uidBytes_idx i hi
  have huid := uidBytes_uid i hi
  simp only [scanState, scanInput, eq_self_iff_true, if_true]
  rw [loopStep_noEdge _ _ _ false (by simp)]
  rw [countdownStep_skip _ _ (by simp [startState]) (by simp [startState])]
  rw [ledStep_skip _ _ (by simp [startState]) (by simp [startState])]
  rw [cooldownStep_skip _ _ (by simp [startState])]
  rw [rfidStep_match _ _ _ i (by simp [startState]) (by simp only [startState]; decide) hidx]
  rw [if_pos (by simp only [startState]; exact hout)]
  rw [refreshStep_fire _ _ (by simp only [startState]; decide)]
  rw [huid]
  simp only [scanEvent, scanState, startState]
  norm_num

/-- Later canonical scans toggle the presence flag and alternate the event. -/
theorem scanState_step_succ (p : List Bool) (i : Nat) (hi : i < numCards)
    (hlen : p.length = numCards) (hout : p.getD i false = false) (m : Nat) :
    loopStep (scanState p i (m + 1)) (scanInput (m + 1) (uidBytes.getD i [])) =
      (scanState p i (m + 2), [scanEvent i (m + 1)]) := by
  have hidx := uidBytes_idx i hi
  have huid := uidBytes_uid i hi
  have hgap := usub_scanGap (m + 1)
  have hilen : i < p.length := by rw [hlen]; exact hi
  simp only [scanState, scanInput, Nat.succ_ne_zero, ite_false]
  rw [loopStep_noEdge _ _ _ false (by simp)]
  rw [countdownStep_skip _ _ (by simp) (by simp)]
  rw [ledStep_greenOff _ _ rfl (by unfold timeElapsed; rw [hgap]; decide) rfl]
  rw [cooldownStep_rearm _ _ rfl (by unfold timeElapsed; dsimp only; rw [hgap]; decide)]
  rw [if_pos rfl]
  rw [rfidStep_match _ _ _ i rfl (by unfold timeElapsed; dsimp only; rw [hgap]; decide) hidx]
  rw [refreshStep_fire _ _ ?hrf]
  case hrf =>
    dsimp only
    split_ifs <;> (unfold timeElapsed; dsimp only; rw [hgap]; decide)
  rw [huid]
  by_cases hpar : (m + 1) % 2 = 1
  · rw [if_neg (by simp [getD_set_self p i _ hilen, hpar])]
    have h2 : ¬((m + 2) % 2 = 1) := by omega
    have h3 : ¬((m + 1) % 2 = 0) := by omega
    dsimp only
    simp only [List.set_set, scanState, scanEvent, Nat.succ_ne_zero, ite_false,
      hpar, h2, h3, if_true, if_false, decide_False, decide_True, eq_self_iff_true]
  · rw [if_pos (by simp [getD_set_self p i _ hilen, hpar])]
    have h2 : (m + 2) % 2 = 1 := by omega
    have h3 : (m + 1) % 2 = 0 := by omega
    dsimp only
    simp only [List.set_set, scanState, scanEvent, Nat.succ_ne_zero, ite_false,
      hpar, h2, h3, if_true, if_false, decide_False, decide_True, eq_self_iff_true]

/-- Closed form of the canonical scan trace. -/
theorem scanTrace_closed (p : List Bool) (i : Nat) (hi : i < numCards)
    (hlen : p.length = numCards) (hout : p.getD i false = false) (n : Nat) :
    scanTrace (startState p) (uidBytes.getD i []) n = (scanState p i n, altEvents i n) := by
  induction n with
  | zero => simp [scanTrace, scanState, altEvents]
  | succ m ih =>
    rw [scanTrace, ih]
    dsimp only
    rcases m with _ | k
    · rw [scanState_step_zero p i hi hlen hout]
      simp [altEvents, List.range_succ]
    · rw [scanState_step_succ p i hi hlen hout k]
      simp [altEvents, List.range_succ]

/-- C1: for an authorized identity `i` starting Outside, a run of `n`
successful scans of that identity with no intervening session start leaves it
Inside exactly when `n` is odd, leaves every other presence flag untouched,
and emits the alternating event list LOGIN, LOGOUT, LOGIN, ... (`altEvents`),
which starts with LOGIN. -/
theorem scan_parity_alternation (i : Nat) (hi : i < numCards) (p : List Bool)
    (hlen : p.length = numCards) (hout : p.getD i false = false) (n : Nat) :
    (scanTrace (startState p) (uidBytes.getD i []) n).1.insideSession.getD i false =
      decide (n % 2 = 1) ∧
    (∀ j, j ≠ i →
      (scanTrace (startState p) (uidBytes.getD i []) n).1.insideSession.getD j false =
        p.getD j false) ∧
    (scanTrace (startState p) (uidBytes.getD i []) n).2 = altEvents i n := by
  have hilen : i < p.length := by rw [hlen]; exact hi
  rw [scanTrace_closed p i hi hlen hout n]
  refine ⟨?_, ?_, rfl⟩
  · rcases n with _ | m
    · simpa [scanState] using hout
    · simp [scanState, getD_set_self p i _ hilen]
  · intro j hj
    rcases n with _ | m
    · simp [scanState, startState]
    · simp [scanState, getD_set_ne p i j _ hj]

theorem scan_parity_alternation_witness :
    (0 : Nat) < numCards ∧
    ([false, false, false, false] : List Bool).length = numCards ∧
    ([false, false, false, false] : List Bool).getD 0 false = false ∧
    ((scanTrace (startState [false, false, false, false])
          (uidBytes.getD 0 []) 3).1.insideSession.getD 0 false = decide (3 % 2 = 1) ∧
      (∀ j, j ≠ 0 →
        (scanTrace (startState [false, false, false, false])
            (uidBytes.getD 0 []) 3).1.insideSession.getD j false =
          ([false, false, false, false] : List Bool).getD j false) ∧
      (scanTrace (startState [false, false, false, false]) (uidBytes.getD 0 []) 3).2 =
        altEvents 0 3) :=
  ⟨by decide, by decide, by decide,
    scan_parity_alternation 0 (by decide) [false, false, false, false]
      (by decide) (by decide) 3⟩

end Cyberthon







